import Mathlib

/-!
Verification development for the Freya sensor driver repository.

The drivers are written in TypeScript; their numeric code mixes plain
IEEE-double arithmetic with JavaScript's 32-bit bitwise operators.  The
shallow embedding below models JavaScript numbers as exact rationals (ℚ)
and reproduces the `>>` / `<<` operators faithfully: JavaScript first
truncates the operand to an integer, wraps it into a signed 32-bit value
(ToInt32), and then shifts arithmetically.  All operand magnitudes reached
by the drivers stay far below 2^53, where double arithmetic is exact, so
the rational model agrees with the source on every value the claims touch.
-/

/-- Truncation of a rational toward zero, as JavaScript's ToInt32 first step
(integer division of numerator by denominator truncates toward zero). -/
def ratTrunc (q : ℚ) : ℤ := q.num / (q.den : ℤ)

/-- Wrap an integer into the signed 32-bit range [-2^31, 2^31), as
JavaScript's ToInt32 conversion does. -/
def toInt32 (n : ℤ) : ℤ := (n + 2 ^ 31) % 2 ^ 32 - 2 ^ 31

/-- JavaScript's sign-propagating right shift `x >> n`: ToInt32 the operand,
then floor-divide by 2^n. -/
def jsShr (q : ℚ) (n : ℕ) : ℚ := ((Int.fdiv (toInt32 (ratTrunc q)) (2 ^ n) : ℤ) : ℚ)

/-- JavaScript's left shift `x << n`: ToInt32 the operand, multiply by 2^n,
wrap back into 32 bits. -/
def jsShl (q : ℚ) (n : ℕ) : ℚ := ((toInt32 (toInt32 (ratTrunc q) * 2 ^ n) : ℤ) : ℚ)

/-- Error taxonomy of the spec (§7). -/
inductive SensorError
  | deviceNotFound
  | timeout
  | parseError
  | configRejected
deriving DecidableEq, Repr

/-! ## BME680 climate driver (src/src/bme680.ts) -/

/-- Calibration coefficients parsed by `BME680.init` (bme680.ts lines 73-113).
The claims under verification quantify over arbitrary coefficient values, so
the fields are plain integers. -/
structure BME680Calib where
  par_T1 : ℤ
  par_T2 : ℤ
  par_T3 : ℤ
  par_P1 : ℤ
  par_P2 : ℤ
  par_P3 : ℤ
  par_P4 : ℤ
  par_P5 : ℤ
  par_P6 : ℤ
  par_P7 : ℤ
  par_P8 : ℤ
  par_P9 : ℤ
  par_P10 : ℤ
  par_H1 : ℤ
  par_H2 : ℤ
  par_H3 : ℤ
  par_H4 : ℤ
  par_H5 : ℤ
  par_H6 : ℤ
  par_H7 : ℤ
  par_GH1 : ℤ
  par_GH2 : ℤ
  par_GH3 : ℤ
  res_heat_range : ℤ
  res_heat_val : ℤ
  range_sw_err : ℤ

/-- Mutable driver state: the calibration set plus the `t_fine` field that
`compensateTemperature` writes and the pressure/humidity compensations read
(bme680.ts line 37). -/
structure BME680State where
  cal : BME680Calib
  t_fine : ℚ

/-- Raw ADC fields extracted from the 15-byte measurement block
(bme680.ts lines 151-159). -/
structure BME680Raws where
  adc_temp : ℕ
  adc_pres : ℕ
  adc_hum : ℕ
  adc_gas_res : ℕ
  gas_range : ℕ

/-- Compensated outputs of `BME680.read` (bme680.ts lines 167-173). -/
structure BME680Reading where
  temperature : ℚ
  pressure : ℚ
  humidity : ℚ
  gasResistance : ℤ

/-- The `t_fine` intermediate computed by `compensateTemperature`
(bme680.ts lines 183-188). -/
def tFine (cal : BME680Calib) (adc_T : ℕ) : ℚ :=
  let var1 := jsShr (adc_T : ℚ) 3 - jsShl (cal.par_T1 : ℚ) 1
  let var2 := jsShr (var1 * (cal.par_T2 : ℚ)) 11
  let var3a := jsShr var1 1 * jsShr var1 1
  let var3b := jsShr var3a 12 * jsShl (cal.par_T3 : ℚ) 4
  let var3 := jsShr var3b 14
  var2 + var3

/-- `BME680.compensateTemperature` (bme680.ts lines 181-191): stores `t_fine`
into the driver state and returns the temperature in °C. -/
def compensateTemperatureS (s : BME680State) (adc_T : ℕ) : BME680State × ℚ :=
  let tf := tFine s.cal adc_T
  ({ s with t_fine := tf }, jsShr (tf * 5 + 128) 8 / 100)

/-- The value held by `var1` at the zero guard of `BME680.compensatePressure`
(bme680.ts lines 200-206). -/
def pVar1 (s : BME680State) : ℚ :=
  let var1 := s.t_fine / 2 - 64000
  (1 + (((s.cal.par_P3 : ℚ) * var1 * var1 / 524288 +
      (s.cal.par_P2 : ℚ) * var1) / 524288) / 32768) * (s.cal.par_P1 : ℚ)

/-- The unguarded branch of `BME680.compensatePressure` (bme680.ts lines
209-215), which divides by `pVar1 s`. -/
def pBody (s : BME680State) (adc_P : ℕ) : ℚ :=
  let var1 := s.t_fine / 2 - 64000
  let var2 := (var1 * var1 * (s.cal.par_P6 : ℚ) / 131072 +
      var1 * (s.cal.par_P5 : ℚ) * 2) / 4 + (s.cal.par_P4 : ℚ) * 65536
  let p0 := 1048576 - (adc_P : ℚ)
  let p1 := (p0 - var2 / 4096) * 6250 / pVar1 s
  let v1 := (s.cal.par_P9 : ℚ) * p1 * p1 / 2147483648
  let v2 := p1 * (s.cal.par_P8 : ℚ) / 32768
  let v3 := p1 * p1 * p1 * (s.cal.par_P10 : ℚ) / 281474976710656
  p1 + (v1 + v2 + v3 + (s.cal.par_P7 : ℚ) * 128) / 16

/-- `BME680.compensatePressure` (bme680.ts lines 198-216): returns 0 when the
`var1` denominator is zero, otherwise evaluates the datasheet formula. -/
def compensatePressureS (s : BME680State) (adc_P : ℕ) : ℚ :=
  if pVar1 s = 0 then 0 else pBody s adc_P

/-- `BME680.compensateHumidity` (bme680.ts lines 223-240), including the final
clamp to [0, 100]. -/
def compensateHumidityS (s : BME680State) (adc_H : ℕ) : ℚ :=
  let temp_scaled := jsShr (s.t_fine * 5 + 128) 8
  let var1 := (adc_H : ℚ) - (s.cal.par_H1 : ℚ) * 16 -
      temp_scaled * (s.cal.par_H3 : ℚ) / 200
  let var2 := jsShr ((s.cal.par_H2 : ℚ) *
      (temp_scaled * (s.cal.par_H4 : ℚ) / 100 +
        jsShr (temp_scaled * (temp_scaled * (s.cal.par_H5 : ℚ) / 100)) 6 / 100 +
        16384)) 10
  let var1b := var1 * var2
  let var2b := jsShr ((s.cal.par_H6 : ℚ) * 16384 +
      (s.cal.par_H7 : ℚ) * temp_scaled / 2) 9
  let var3 := jsShr var1b 14 * jsShr var1b 14
  let var4 := jsShr (var2b * var3) 15
  let H := jsShr (jsShr (var1b + var4) 10 * 1000) 12
  let humidity := H / 1000
  if humidity > 100 then 100 else if humidity < 0 then 0 else humidity

/-- Lookup table 1 of `BME680.compensateGas` (bme680.ts lines 251-256). -/
def lookupTable1 : List ℤ :=
  [2147483647, 2147483647, 2147483647, 2147483647,
   2147483647, 2126008810, 2147483647, 2130303777,
   2147483647, 2147483647, 2143188679, 2136746228,
   2147483647, 2126008810, 2147483647, 2147483647]

/-- Lookup table 2 of `BME680.compensateGas` (bme680.ts lines 257-262). -/
def lookupTable2 : List ℤ :=
  [4096000000, 2048000000, 1024000000, 512000000,
   255744255, 127110228, 64000000, 32258064,
   16016016, 8000000, 4000000, 2000000,
   1000000, 500000, 250000, 125000]

/-- `var1` of `BME680.compensateGas` (bme680.ts line 264). -/
def gasVar1 (err : ℤ) (gas_range : ℕ) : ℚ :=
  (1340 + 5 * (err : ℚ)) * ((lookupTable1.getD gas_range 0 : ℤ) : ℚ) / 65536

/-- `var2` of `BME680.compensateGas` (bme680.ts line 265), the denominator of
the final division. -/
def gasVar2 (err : ℤ) (adc_gas gas_range : ℕ) : ℚ :=
  (adc_gas : ℚ) * 32768 - 16777216 + gasVar1 err gas_range

/-- `var3` of `BME680.compensateGas` (bme680.ts line 266). -/
def gasVar3 (err : ℤ) (gas_range : ℕ) : ℚ :=
  ((lookupTable2.getD gas_range 0 : ℤ) : ℚ) * gasVar1 err gas_range / 512

/-- `BME680.compensateGas` (bme680.ts lines 249-269): the final division by
`var2` carries no zero guard, and `Math.floor` is applied to the quotient. -/
def compensateGas (err : ℤ) (adc_gas gas_range : ℕ) : ℤ :=
  ⌊(gasVar3 err gas_range + gasVar2 err adc_gas gas_range / 2) /
    gasVar2 err adc_gas gas_range⌋

/-- Gas compensation read through the driver state (bme680.ts line 171 passes
`this.range_sw_err` implicitly). -/
def compensateGasS (s : BME680State) (adc_gas gas_range : ℕ) : ℤ :=
  compensateGas s.cal.range_sw_err adc_gas gas_range

/-- The compensation phase of `BME680.read` (bme680.ts lines 167-173):
temperature first (which updates `t_fine` in the state), then pressure
(converted Pa → hPa), humidity, and gas resistance, each reading the updated
state. -/
def bme680ReadCompensate (s : BME680State) (r : BME680Raws) :
    BME680State × BME680Reading :=
  let step := compensateTemperatureS s r.adc_temp
  let s1 := step.1
  let temperature := step.2
  let pressure := compensatePressureS s1 r.adc_pres / 100
  let humidity := compensateHumidityS s1 r.adc_hum
  let gasResistance := compensateGasS s1 r.adc_gas_res r.gas_range
  (s1, ⟨temperature, pressure, humidity, gasResistance⟩)

/-- Parsing of `range_sw_err` in `BME680.init` (bme680.ts lines 108-113):
take bits 7:4 of register 0x04 and reinterpret the 4-bit value as signed. -/
def parseRangeSwErr (reg04 : ℕ) : ℤ :=
  let v : ℤ := ((reg04 &&& 0xF0) >>> 4 : ℕ)
  if v > 7 then v - 16 else v

/-- Bus operations performed by the drivers, for tracing the order of
register transactions during initialization. -/
inductive BusOp
  | writeByteReg (reg val : ℕ)
  | delayMs (ms : ℕ)
  | readByteReg (reg : ℕ)
  | readBlockReg (reg len : ℕ)
deriving DecidableEq, Repr

/-- `BME680.init` (bme680.ts lines 53-123) as a bus-operation trace together
with its outcome, parameterized by the chip-id byte the device returns from
register 0xD0.  The source order is: soft-reset write (0xE0 ← 0xB6), a fixed
10 ms settle delay, then the chip-id read; a mismatch against 0x61 throws
before any calibration read or configuration write, so the driver never
reaches Ready. -/
def bme680Init (chipId : ℕ) : List BusOp × Except SensorError Unit :=
  let pre : List BusOp := [.writeByteReg 0xE0 0xB6, .delayMs 10, .readByteReg 0xD0]
  if chipId ≠ 0x61 then
    (pre, .error .deviceNotFound)
  else
    (pre ++ [.readBlockReg 0x89 25, .readBlockReg 0xE1 16,
             .readByteReg 0x02, .readByteReg 0x00, .readByteReg 0x04,
             .writeByteReg 0x72 0x02, .writeByteReg 0x75 0x08,
             .writeByteReg 0x74 ((0x04 <<< 5) ||| (0x03 <<< 2) ||| 0x00)],
     .ok ())

/-- Loop condition of the status poll in `BME680.read` (bme680.ts line 148):
the do/while exits once bit 7 (the `new_data` flag) of the first byte of the
0x1D block is set. -/
def newDataFlag (status : ℕ) : Bool := decide ((status &&& 0x80) ≠ 0)

/-- The status-poll do/while of `BME680.read` (bme680.ts lines 145-148),
indexed by fuel.  `status i` is the first byte of the block returned by the
(i+1)-th poll read.  The source loop has no retry counter and no timeout
path: its only exit is the `new_data` flag, which this fuel-indexed model
makes explicit by returning `none` when the flag never appears within the
given fuel. -/
def pollNewData (status : ℕ → ℕ) : ℕ → ℕ → Option ℕ
  | 0, _ => none
  | fuel + 1, i => if newDataFlag (status i) then some i else pollNewData status fuel (i + 1)

/-! ## AS7331 UV spectrum driver (src/unnamed/part_001) -/

/-- Configuration stored by `AS7331.init` (part_001 lines 59-63). -/
structure AS7331Config where
  gainCode : ℕ
  timeCode : ℕ
  integrationTime : ℕ
  gainMultiplier : ℕ
deriving DecidableEq, Repr

/-- `AS7331.init` (part_001 lines 41-71), parameterized by the byte the
device would return from its operational-state register (OSR).  The identity
check on the OSR's upper nibble (part_001 lines 49-54) is commented out in
the source, so the function ignores `osr` and always succeeds: it enters
configuration mode, decodes gain (2^code) and integration time (2^code ms),
and writes the configuration registers. -/
def as7331Init (osr : ℕ) (gainCode timeCode : ℕ) : Except SensorError AS7331Config :=
  let g := gainCode &&& 0x0F
  let t := timeCode &&& 0x0F
  Except.ok ⟨g, t, 2 ^ t, 2 ^ g⟩

/-- The identity predicate of the commented-out OSR check (part_001 line 50):
the device-class constant occupies the upper nibble of the OSR. -/
def as7331IdMatches (osr : ℕ) : Bool := decide ((osr &&& 0xF0) = 0x20)

/-! ## VEML6030 light driver (src/src/veml6030.ts) -/

/-- `VEML6030.decodeGain` (veml6030.ts lines 109-122). -/
def decodeGain (bits : ℕ) : ℚ :=
  match bits &&& 0b11 with
  | 0b00 => 2
  | 0b01 => 1
  | 0b11 => 0.25
  | 0b10 => 0.125
  | _ => 1

/-- `VEML6030.decodeIntegrationTime` (veml6030.ts lines 128-145). -/
def decodeIntegrationTime (bits : ℕ) : ℚ :=
  match bits &&& 0b111 with
  | 0b000 => 100
  | 0b001 => 200
  | 0b010 => 400
  | 0b011 => 800
  | 0b100 => 50
  | 0b101 => 25
  | _ => 100

/-- `VEML6030.compensateHighLux` (veml6030.ts lines 151-161): the vendor's
fixed-coefficient quartic correction polynomial. -/
def compensateHighLux (lux : ℚ) : ℚ :=
  let A : ℚ := 6.0135e-13
  let B : ℚ := -9.3924e-9
  let C : ℚ := 8.1488e-5
  let D : ℚ := 1.0023
  A * lux ^ 4 + B * lux ^ 3 + C * lux ^ 2 + D * lux

/-- The lux computation of `VEML6030.read` (veml6030.ts lines 89-103):
convert the raw count with `luxPerCount`, then apply the high-lux correction
only when the configured gain is at most quarter-scale and the uncorrected
lux exceeds 1000. -/
def vemlReadLux (counts : ℕ) (gainValue luxPerCount : ℚ) : ℚ :=
  let lux := (counts : ℚ) * luxPerCount
  if gainValue ≤ 0.25 ∧ lux > 1000 then compensateHighLux lux else lux

/-! ## Sampling orchestrator (src/src/index.ts) -/

/-- `SAMPLEINT_MIN` (index.ts line 20). -/
def SAMPLEINT_MIN : ℚ := 0.5

/-- `SAMPLEINT_MAX` (index.ts line 21). -/
def SAMPLEINT_MAX : ℚ := 12 * 60 * 60 * 1000

/-- State of the `EnvSensorDriver` class (index.ts line 24). -/
structure EnvSensorDriver where
  sampleInterval : ℚ
deriving DecidableEq, Repr

/-- `EnvSensorDriver.setSampleInterval` (index.ts lines 45-51): reject
out-of-bounds requests without touching the state, otherwise store the
interval (scaled to milliseconds) and report success. -/
def setSampleInterval (st : EnvSensorDriver) (interval : ℚ) : Bool × EnvSensorDriver :=
  if interval < SAMPLEINT_MIN ∨ interval > SAMPLEINT_MAX then (false, st)
  else (true, { st with sampleInterval := interval * 1000 })

/-- Outcome of one tick of the sampling loop. -/
structure CycleOutcome where
  readsCompleted : List String
  published : List (String × ℚ)
  uncaught : Option SensorError
deriving DecidableEq, Repr

/-- One tick of the sampling loop (index.ts lines 121-131): the callback
reads the BME680 (three getter calls), then the AS7331, then the VEML6030,
strictly sequentially, with no per-driver error handling; a thrown error
aborts the remainder of the callback.  The readings are only logged to the
console — forwarding to the Core is an unimplemented TODO in the source —
so no measurement mapping is built or published on any path. -/
def samplingCycle (bme as7331 veml : Except SensorError ℚ) : CycleOutcome :=
  match bme with
  | .error e => ⟨[], [], some e⟩
  | .ok _ =>
    match as7331 with
    | .error e => ⟨["bme680"], [], some e⟩
    | .ok _ =>
      match veml with
      | .error e => ⟨["bme680", "as7331"], [], some e⟩
      | .ok _ => ⟨["bme680", "as7331", "veml6030"], [], none⟩

/-- Modelled from the spec (§4.4 step 4 of the climate driver's read):
the reference gas-resistance computation, written from the spec's own
formula text — `var1 = (1340 + 5·err) · table1[range] / 65536`;
`var2 = (raw·32768) − 16777216 + var1`; `var3 = table2[range] · var1 / 512`;
`result = floor((var3 + var2/2) / var2)` — over the two fixed 16-entry
lookup tables. -/
def specGasResistance (err : ℤ) (raw range : ℕ) : ℤ :=
  let var1 : ℚ := (1340 + 5 * (err : ℚ)) * ((lookupTable1.getD range 0 : ℤ) : ℚ) / 65536
  let var2 : ℚ := (raw : ℚ) * 32768 - 16777216 + var1
  let var3 : ℚ := ((lookupTable2.getD range 0 : ℤ) : ℚ) * var1 / 512
  ⌊(var3 + var2 / 2) / var2⌋

/-- Every entry of lookup table 1 is at least 2126008810. -/
lemma lookupTable1_lower (g : ℕ) (hg : g < 16) :
    (2126008810 : ℤ) ≤ lookupTable1.getD g 0 := by
  interval_cases g <;> decide

/-- The gas denominator `var2` is strictly positive for every 10-bit raw
value, 4-bit range index, and `range_sw_err` in [-8, 7]: the smallest
possible `var1` is 1300·2126008810/65536 > 2^24, which already outweighs the
−16777216 term. -/
lemma gasVar2_pos (e : ℤ) (a g : ℕ) (hg : g < 16) (he1 : -8 ≤ e) (he2 : e ≤ 7) :
    0 < gasVar2 e a g := by
  have ht : (2126008810 : ℚ) ≤ ((lookupTable1.getD g 0 : ℤ) : ℚ) := by
    exact_mod_cast lookupTable1_lower g hg
  have he : (1300 : ℚ) ≤ 1340 + 5 * (e : ℚ) := by
    have h8 : (-8 : ℚ) ≤ (e : ℚ) := by exact_mod_cast he1
    linarith
  have hmul : (1300 : ℚ) * 2126008810 ≤
      (1340 + 5 * (e : ℚ)) * ((lookupTable1.getD g 0 : ℤ) : ℚ) :=
    mul_le_mul he ht (by norm_num) (by linarith)
  have ha : (0 : ℚ) ≤ (a : ℚ) := Nat.cast_nonneg a
  unfold gasVar2 gasVar1
  linarith

/-- C1: The UV spectrum driver's init() is claimed to verify that the upper
nibble of the operational-state register equals the device-class constant
0x2 and fail with DeviceNotFound otherwise, on every initialization.  The
source has this check commented out: with an OSR byte of 0x00 — whose upper
nibble is 0x0, not 0x2 — init still succeeds with the decoded configuration,
and the identity predicate indeed fails on that byte. -/
theorem as7331_init_identity_check_skipped :
    as7331Init 0x00 7 7 = .ok ⟨7, 7, 128, 128⟩ ∧ as7331IdMatches 0x00 = false := by
  refine ⟨?_, by decide⟩
  simp [as7331Init]
  decide

/-- C2: The climate driver's status poll is claimed to retry a bounded
number of times and fail with Timeout past the bound.  The source loop's
only exit is the new_data flag itself: against a stuck chip whose status
byte always reads 0x00 the loop completes for no amount of fuel, from any
starting attempt — there is no retry bound and no Timeout path. -/
theorem bme680_poll_unbounded_on_stuck_chip (fuel start : ℕ) :
    pollNewData (fun _ => 0) fuel start = none := by
  induction fuel generalizing start with
  | zero => rfl
  | succ n ih =>
    have hflag : newDataFlag 0 = false := by decide
    simp [pollNewData, hflag, ih]

/-- C3: In every sampling cycle the temperature compensation runs first and
stores the cycle's fine-temperature into the driver state, and the pressure
and humidity compensations of the same cycle read exactly that value —
whatever `t_fine` the state held before the cycle. -/
theorem bme680_fine_temp_same_cycle (s : BME680State) (r : BME680Raws) :
    (bme680ReadCompensate s r).1.t_fine = tFine s.cal r.adc_temp ∧
    (bme680ReadCompensate s r).2.pressure =
      compensatePressureS ⟨s.cal, tFine s.cal r.adc_temp⟩ r.adc_pres / 100 ∧
    (bme680ReadCompensate s r).2.humidity =
      compensateHumidityS ⟨s.cal, tFine s.cal r.adc_temp⟩ r.adc_hum :=
  ⟨rfl, rfl, rfl⟩

/-- C4: For every 10-bit raw gas value, 4-bit gas-range index, and
`range_sw_err` in [-8, 7], the driver's gas-resistance compensation equals
the spec's reference computation over the two fixed lookup tables. -/
theorem bme680_gas_matches_spec (a g : ℕ) (e : ℤ)
    (ha : a < 1024) (hg : g < 16) (he1 : -8 ≤ e) (he2 : e ≤ 7) :
    compensateGas e a g = specGasResistance e a g := rfl

/-- Witness for C4, instantiated at range index 0 with a concrete reference
raw value and `range_sw_err`. -/
theorem bme680_gas_matches_spec_witness :
    (500 : ℕ) < 1024 ∧ compensateGas 5 500 0 = specGasResistance 5 500 0 :=
  ⟨by decide, bme680_gas_matches_spec 500 0 5 (by decide) (by decide) (by decide) (by decide)⟩

/-- C5: The light driver's high-lux correction is the identity on the
returned lux whenever the uncorrected lux is at most 1000 or the configured
gain exceeds quarter-scale, and only under gain ≤ 0.25 and lux > 1000 is the
fixed-coefficient quartic polynomial applied. -/
theorem veml6030_highlux_guard (counts : ℕ) (g lpc : ℚ) :
    ((counts : ℚ) * lpc ≤ 1000 ∨ 0.25 < g →
      vemlReadLux counts g lpc = (counts : ℚ) * lpc) ∧
    (g ≤ 0.25 → 1000 < (counts : ℚ) * lpc →
      vemlReadLux counts g lpc = compensateHighLux ((counts : ℚ) * lpc)) := by
  constructor
  · intro h
    have hnc : ¬((g ≤ 0.25) ∧ 1000 < (counts : ℚ) * lpc) := by
      rintro ⟨h1, h2⟩
      rcases h with h | h
      · linarith
      · linarith
    simp [vemlReadLux, gt_iff_lt, hnc]
  · intro h1 h2
    simp [vemlReadLux, gt_iff_lt, h1, h2]

/-- Witness for C5: with unit `luxPerCount`, a 100-count reading at gain 1
is returned unchanged, and an 8000-count reading at gain 1/4 goes through
the quartic correction. -/
theorem veml6030_highlux_guard_witness :
    vemlReadLux 100 (decodeGain 0b01) 1 = ((100 : ℕ) : ℚ) * 1 ∧
    vemlReadLux 8000 (decodeGain 0b11) 1 = compensateHighLux (((8000 : ℕ) : ℚ) * 1) :=
  ⟨(veml6030_highlux_guard 100 (decodeGain 0b01) 1).1 (Or.inl (by norm_num)),
   (veml6030_highlux_guard 8000 (decodeGain 0b11) 1).2 (by norm_num [decodeGain])
     (by norm_num)⟩

/-- C6: setSampleInterval succeeds at exactly SAMPLEINT_MIN and exactly
SAMPLEINT_MAX, and a request one unit outside either bound returns failure
and leaves the stored interval (indeed the whole driver state) unchanged. -/
theorem setSampleInterval_bounds (st : EnvSensorDriver) :
    (setSampleInterval st SAMPLEINT_MIN).1 = true ∧
    (setSampleInterval st SAMPLEINT_MAX).1 = true ∧
    setSampleInterval st (SAMPLEINT_MIN - 1) = (false, st) ∧
    setSampleInterval st (SAMPLEINT_MAX + 1) = (false, st) := by
  refine ⟨?_, ?_, ?_, ?_⟩ <;>
    simp [setSampleInterval, SAMPLEINT_MIN, SAMPLEINT_MAX] <;> norm_num

/-- C7 counterexample: the claim says init() reads the identity register
first and only then soft-resets; in the source the very first bus operation
of init is the soft-reset write (0xE0 ← 0xB6), not the identity read, and on
a mismatching chip id the outcome is DeviceNotFound. -/
theorem bme680_init_identity_not_first :
    (bme680Init 0x00).1.head? = some (.writeByteReg 0xE0 0xB6) ∧
    (bme680Init 0x00).1.head? ≠ some (.readByteReg 0xD0) ∧
    (bme680Init 0x00).2 = .error .deviceNotFound :=
  ⟨rfl, by decide, rfl⟩

/-- C7 amended: init() performs the soft reset and the fixed 10 ms settle
delay first, then reads the identity register 0xD0 and fails with
DeviceNotFound when it differs from 0x61, performing no further bus
operation — the driver never reaches Ready. -/
theorem bme680_init_reset_then_identity (chipId : ℕ) (h : chipId ≠ 0x61) :
    bme680Init chipId =
      ([.writeByteReg 0xE0 0xB6, .delayMs 10, .readByteReg 0xD0],
       .error .deviceNotFound) := by
  simp [bme680Init, h]

/-- Witness for the amended C7, at chip id 0x00. -/
theorem bme680_init_reset_then_identity_witness :
    (0 : ℕ) ≠ 0x61 ∧
    bme680Init 0 =
      ([.writeByteReg 0xE0 0xB6, .delayMs 10, .readByteReg 0xD0],
       .error .deviceNotFound) :=
  ⟨by decide, bme680_init_reset_then_identity 0 (by decide)⟩

/-- C8: For every raw pressure ADC value and every calibration set and
fine-temperature, pressure compensation is total: when the guard denominator
`var1` is zero it returns 0, and the dividing branch `pBody` is only taken
when that denominator is nonzero. -/
theorem bme680_pressure_total_guard (s : BME680State) (adc_P : ℕ) :
    (pVar1 s = 0 ∧ compensatePressureS s adc_P = 0) ∨
    (pVar1 s ≠ 0 ∧ compensatePressureS s adc_P = pBody s adc_P) := by
  by_cases h : pVar1 s = 0
  · exact Or.inl ⟨h, by simp [compensatePressureS, h]⟩
  · exact Or.inr ⟨h, by simp [compensatePressureS, h]⟩

/-- C9: An orchestrator tick in which the AS7331 read throws a Timeout: the
source's callback has no per-driver error handling, so the VEML6030 is never
read and the error escapes; and even an all-success tick publishes no
measurement mapping, since forwarding to the Core is an unimplemented TODO
in the source. -/
theorem samplingCycle_aborts_and_publishes_nothing :
    samplingCycle (.ok 24) (.error .timeout) (.ok 100) =
      ⟨["bme680"], [], some .timeout⟩ ∧
    (samplingCycle (.ok 24) (.ok 1) (.ok 100)).published = [] :=
  ⟨rfl, rfl⟩

/-- C10 counterexample: there is no representable input — 10-bit raw gas
value, 4-bit range index, `range_sw_err` in [-8, 7] — making the unguarded
gas denominator `var2` zero. -/
theorem bme680_gas_var2_never_zero :
    ¬ ∃ (a g : ℕ) (e : ℤ), a < 1024 ∧ g < 16 ∧ -8 ≤ e ∧ e ≤ 7 ∧
      gasVar2 e a g = 0 := by
  rintro ⟨a, g, e, -, hg, he1, he2, h0⟩
  exact absurd h0 (ne_of_gt (gasVar2_pos e a g hg he1 he2))

/-- C10 amended: the gas compensation's final division is indeed performed
with no zero guard — `compensateGas` is exactly the floor of the quotient by
`var2` — but for every representable input `var2` is strictly positive, so
the division never sees a zero denominator and the result is finite. -/
theorem bme680_gas_unguarded_but_nonzero (a g : ℕ) (e : ℤ)
    (ha : a < 1024) (hg : g < 16) (he1 : -8 ≤ e) (he2 : e ≤ 7) :
    0 < gasVar2 e a g ∧
    compensateGas e a g =
      ⌊(gasVar3 e g + gasVar2 e a g / 2) / gasVar2 e a g⌋ :=
  ⟨gasVar2_pos e a g hg he1 he2, rfl⟩

/-- Witness for the amended C10, at raw 0, range index 0, zero error. -/
theorem bme680_gas_unguarded_but_nonzero_witness :
    0 < gasVar2 0 0 0 ∧
    compensateGas 0 0 0 = ⌊(gasVar3 0 0 + gasVar2 0 0 0 / 2) / gasVar2 0 0 0⌋ :=
  bme680_gas_unguarded_but_nonzero 0 0 0 (by decide) (by decide) (by decide) (by decide)
